import Mathlib

set_option maxRecDepth 10000

/-!
A verification development for the TributeWrapper webhook server.

The embedding models Python strings as `List Char` (a Python `str` is a
sequence of Unicode code points) and byte strings as `List Nat` with
entries below 256.  Functions that can raise a Python exception return
`Except PyError _`; the exception kinds that actually arise in the
modelled code are `IndexError`, `AttributeError` and `TypeError`.
-/

/-- Python exception kinds reachable in the modelled code. -/
inductive PyError where
  | indexError
  | attributeError
  | typeError
deriving DecidableEq

/-- Whitespace characters recognised by Python `str.strip()` and
`str.split()` (the ASCII subset; code points 11 and 12 are `\v` and `\f`). -/
def pyIsSpace (c : Char) : Bool :=
  c = ' ' || c = '\t' || c = '\n' || c = '\r' || c = Char.ofNat 11 || c = Char.ofNat 12

/-- Python `str.strip()`: drop leading and trailing whitespace. -/
def pyStrip (s : List Char) : List Char :=
  ((s.dropWhile pyIsSpace).reverse.dropWhile pyIsSpace).reverse

/-- Worker for Python `str.split()` with no separator argument: splits on
runs of whitespace and never produces empty tokens.  `acc` holds the
current token, reversed. -/
def pySplitAux : List Char → List Char → List (List Char)
  | [], acc => if acc.isEmpty then [] else [acc.reverse]
  | c :: rest, acc =>
    if pyIsSpace c then
      if acc.isEmpty then pySplitAux rest [] else acc.reverse :: pySplitAux rest []
    else
      pySplitAux rest (c :: acc)

/-- Python `str.split()` with no separator argument. -/
def pySplit (s : List Char) : List (List Char) :=
  pySplitAux s []

/-- Python `str.lower()` restricted to the ASCII case mapping, which is all
the code exercises (the color codes, pattern texts and currency codes in
play are ASCII). -/
def lowerL (s : List Char) : List Char :=
  s.map Char.toLower

/-- Python `str.upper()` restricted to the ASCII case mapping. -/
def upperL (s : List Char) : List Char :=
  s.map Char.toUpper

/-- Python substring test `needle in haystack`. -/
def containsSub (needle : List Char) : List Char → Bool
  | [] => needle.isEmpty
  | c :: rest => needle.isPrefixOf (c :: rest) || containsSub needle rest

/-- Fuel-indexed worker for Python `str.replace(old, new)`: non-overlapping
replacement scanning left to right.  Giving it `s.length` fuel is enough
because every step consumes at least one character of the subject. -/
def pyReplaceFuel (old new : List Char) : Nat → List Char → List Char
  | 0, s => s
  | _ + 1, [] => []
  | fuel + 1, c :: rest =>
    if !old.isEmpty && old.isPrefixOf (c :: rest) then
      new ++ pyReplaceFuel old new fuel ((c :: rest).drop old.length)
    else
      c :: pyReplaceFuel old new fuel rest

/-- Python `str.replace(old, new)` (all non-overlapping occurrences,
left to right). -/
def pyReplace (old new s : List Char) : List Char :=
  pyReplaceFuel old new s.length s

/-- Matches the regex character class `[0-9a-f]` under `re.IGNORECASE`. -/
def isHexDigitCI (c : Char) : Bool :=
  c.isDigit || ('a' ≤ c && c ≤ 'f') || ('A' ≤ c && c ≤ 'F')

/-- Matches the regex character class `[0-9a-fk-or]` under `re.IGNORECASE`:
one hex digit or one of the letters k, l, m, n, o, r, in either case. -/
def isColorCode (c : Char) : Bool :=
  isHexDigitCI c || ('k' ≤ c && c ≤ 'o') || c = 'r' || ('K' ≤ c && c ≤ 'O') || c = 'R'

/-- Does the string start with the extended color escape
`§x(?:§[0-9a-f]){6}` (under `re.IGNORECASE`)?  The match, when present,
is exactly 14 characters long. -/
def hexEscapeAt : List Char → Bool
  | a :: b :: p1 :: h1 :: p2 :: h2 :: p3 :: h3 :: p4 :: h4 :: p5 :: h5 :: p6 :: h6 :: _ =>
    a = '§' && (b = 'x' || b = 'X') &&
    p1 = '§' && isHexDigitCI h1 && p2 = '§' && isHexDigitCI h2 &&
    p3 = '§' && isHexDigitCI h3 && p4 = '§' && isHexDigitCI h4 &&
    p5 = '§' && isHexDigitCI h5 && p6 = '§' && isHexDigitCI h6
  | _ => false

/-- First substitution pass of `RconManager._strip_minecraft_colors`:
`re.sub` of the extended escape with the empty string, i.e. a leftmost,
non-overlapping scan that deletes each 14-character match. -/
def stripHexEscapes : List Char → List Char
  | a :: b :: p1 :: h1 :: p2 :: h2 :: p3 :: h3 :: p4 :: h4 :: p5 :: h5 :: p6 :: h6 :: rest =>
    if hexEscapeAt (a :: b :: p1 :: h1 :: p2 :: h2 :: p3 :: h3 :: p4 :: h4 :: p5 :: h5 :: p6 :: h6 :: rest) then
      stripHexEscapes rest
    else
      a :: stripHexEscapes (b :: p1 :: h1 :: p2 :: h2 :: p3 :: h3 :: p4 :: h4 :: p5 :: h5 :: p6 :: h6 :: rest)
  | s => s

/-- Second substitution pass of `RconManager._strip_minecraft_colors`:
`re.sub` of `§[0-9a-fk-or]` (IGNORECASE) with the empty string. -/
def stripSimpleCodes : List Char → List Char
  | a :: b :: rest =>
    if a = '§' && isColorCode b then stripSimpleCodes rest
    else a :: stripSimpleCodes (b :: rest)
  | s => s

/-- `RconManager._strip_minecraft_colors`: the hex-escape pass runs first,
then the simple-code pass runs on its result. -/
def strip_minecraft_colors (s : List Char) : List Char :=
  stripSimpleCodes (stripHexEscapes s)

/-- Decimal string of an integer, as Python `str(amount)` renders it. -/
def intStr (n : ℤ) : List Char :=
  (toString n).toList

/-- Decimal string of a natural number. -/
def natStr (n : Nat) : List Char :=
  (toString n).toList

/-- The literal placeholder replaced by the player name in patterns. -/
def placeholderPlayer : List Char := "{player}".toList

/-- The literal placeholder replaced by the amount in patterns. -/
def placeholderAmount : List Char := "{amount}".toList

/-- `RconManager._replace_placeholders`: substitute the player placeholder
first, then the amount placeholder, exactly as the two chained
`str.replace` calls do. -/
def replace_placeholders (pattern player : List Char) (amount : ℤ) : List Char :=
  pyReplace placeholderAmount (intStr amount) (pyReplace placeholderPlayer player pattern)

/-- One of the two for-loops in `RconManager._check_response`: scan the
pattern list in order and report whether some rendered pattern occurs,
case-insensitively, in the already-lowercased cleaned response (the loop
short-circuits at the first match). -/
def patternLoop (player : List Char) (amount : ℤ) (responseLower : List Char) :
    List (List Char) → Bool
  | [] => false
  | p :: ps =>
    if containsSub (lowerL (replace_placeholders p player amount)) responseLower then true
    else patternLoop player amount responseLower ps

/-- `RconManager._check_response`: strip color codes from the response,
lowercase it, then check the error patterns (any match returns false),
then the success patterns (any match returns true); with no match the
result is true exactly when the success-pattern list is empty. -/
def check_response (errorPatterns successPatterns : List (List Char))
    (response player : List Char) (amount : ℤ) : Bool :=
  let responseLower := lowerL (strip_minecraft_colors response)
  if patternLoop player amount responseLower errorPatterns then false
  else if patternLoop player amount responseLower successPatterns then true
  else successPatterns.isEmpty

/-- The RCON connection settings and command specification from the
configuration. -/
structure RconConfig where
  host : List Char
  port : Nat
  command_template : List Char
  success_patterns : List (List Char)
  error_patterns : List (List Char)

/-- Outcome of one attempt to send a command over the RCON transport:
a response string, a refused connection, or any other transport-level
exception carrying its message. -/
inductive RconOutcome where
  | ok (response : List Char)
  | connRefused
  | exn (msg : List Char)

/-- The placeholder replaced by the player name in the command template. -/
def placeholderPlayerName : List Char := "%player_name%".toList

/-- The placeholder replaced by the amount in the command template. -/
def placeholderAmountTpl : List Char := "%amount%".toList

/-- The command rendering at the top of `RconManager.execute_command`:
substitute `%player_name%`, then `%amount%`. -/
def renderCommand (rc : RconConfig) (player : List Char) (amount : ℤ) : List Char :=
  pyReplace placeholderAmountTpl (intStr amount) (pyReplace placeholderPlayerName player rc.command_template)

/-- The error message returned by `execute_command` when the connection is
refused: the f-string `Не удалось подключиться к RCON ({host}:{port})`. -/
def connRefusedMsg (rc : RconConfig) : List Char :=
  ("Не удалось подключиться к RCON (").toList ++ rc.host ++ (":").toList
    ++ natStr rc.port ++ (")").toList

/-- The error message returned by `execute_command` for any other
transport exception. -/
def rconExnMsg (msg : List Char) : List Char :=
  ("Ошибка выполнения RCON команды: ").toList ++ msg

/-- `RconManager.execute_command`: render the command, consult the
transport exactly once, classify a received response, and turn either
exception into a `(False, message)` pair — no exception escapes and no
retry happens (the transport is consulted a single time). -/
def execute_command (rc : RconConfig) (transport : List Char → RconOutcome)
    (player : List Char) (amount : ℤ) : Bool × List Char :=
  match transport (renderCommand rc player amount) with
  | .ok response =>
    (check_response rc.error_patterns rc.success_patterns response player amount, response)
  | .connRefused => (false, connRefusedMsg rc)
  | .exn m => (false, rconExnMsg m)

/-- `RconManager.add_currency_to_player`: run `execute_command` and keep
the success flag. -/
def add_currency_to_player (rc : RconConfig) (transport : List Char → RconOutcome)
    (player : List Char) (amount : ℤ) : Bool :=
  (execute_command rc transport player amount).1

/-- Truncate to 32 bits. -/
def w32 (n : Nat) : Nat :=
  n % 4294967296

/-- Right rotation of a 32-bit word by `k` bits. -/
def rotr32 (k x : Nat) : Nat :=
  w32 ((x >>> k) ||| (x <<< (32 - k)))

/-- SHA-256 choice function. -/
def shaCh (x y z : Nat) : Nat :=
  (x &&& y) ^^^ ((x ^^^ 4294967295) &&& z)

/-- SHA-256 majority function. -/
def shaMaj (x y z : Nat) : Nat :=
  (x &&& y) ^^^ (x &&& z) ^^^ (y &&& z)

/-- SHA-256 big sigma 0. -/
def bigSigma0 (x : Nat) : Nat :=
  rotr32 2 x ^^^ rotr32 13 x ^^^ rotr32 22 x

/-- SHA-256 big sigma 1. -/
def bigSigma1 (x : Nat) : Nat :=
  rotr32 6 x ^^^ rotr32 11 x ^^^ rotr32 25 x

/-- SHA-256 small sigma 0. -/
def smallSigma0 (x : Nat) : Nat :=
  rotr32 7 x ^^^ rotr32 18 x ^^^ (x >>> 3)

/-- SHA-256 small sigma 1. -/
def smallSigma1 (x : Nat) : Nat :=
  rotr32 17 x ^^^ rotr32 19 x ^^^ (x >>> 10)

/-- The 64 SHA-256 round constants. -/
def shaK : List Nat :=
  [1116352408, 1899447441, 3049323471, 3921009573, 961987163, 1508970993, 2453635748, 2870763221,
   3624381080, 310598401, 607225278, 1426881987, 1925078388, 2162078206, 2614888103, 3248222580,
   3835390401, 4022224774, 264347078, 604807628, 770255983, 1249150122, 1555081692, 1996064986,
   2554220882, 2821834349, 2952996808, 3210313671, 3336571891, 3584528711, 113926993, 338241895,
   666307205, 773529912, 1294757372, 1396182291, 1695183700, 1986661051, 2177026350, 2456956037,
   2730485921, 2820302411, 3259730800, 3345764771, 3516065817, 3600352804, 4094571909, 275423344,
   430227734, 506948616, 659060556, 883997877, 958139571, 1322822218, 1537002063, 1747873779,
   1955562222, 2024104815, 2227730452, 2361852424, 2428436474, 2756734187, 3204031479, 3329325298]

/-- The SHA-256 hash state: eight 32-bit words. -/
structure Sha256State where
  a : Nat
  b : Nat
  c : Nat
  d : Nat
  e : Nat
  f : Nat
  g : Nat
  h : Nat

/-- The SHA-256 initial hash value. -/
def shaH0 : Sha256State :=
  ⟨1779033703, 3144134277, 1013904242, 2773480762, 1359893119, 2600822924, 528734635, 1541459225⟩

/-- One SHA-256 compression round, consuming one (constant, schedule word)
pair. -/
def shaRound (st : Sha256State) (kw : Nat × Nat) : Sha256State :=
  let t1 := w32 (st.h + bigSigma1 st.e + shaCh st.e st.f st.g + kw.1 + kw.2)
  let t2 := w32 (bigSigma0 st.a + shaMaj st.a st.b st.c)
  ⟨w32 (t1 + t2), st.a, st.b, st.c, w32 (st.d + t1), st.e, st.f, st.g⟩

/-- Extend the 16 block words to the 64-word message schedule.  `acc` holds
the words produced so far, most recent first. -/
def shaExtend : Nat → List Nat → List Nat
  | 0, acc => acc.reverse
  | n + 1, acc =>
    shaExtend n
      (w32 (smallSigma1 (acc.getD 1 0) + acc.getD 6 0 + smallSigma0 (acc.getD 14 0) + acc.getD 15 0) :: acc)

/-- Big-endian 32-bit words of a byte block. -/
def bytesToWords : List Nat → List Nat
  | b1 :: b2 :: b3 :: b4 :: rest =>
    (b1 * 16777216 + b2 * 65536 + b3 * 256 + b4) :: bytesToWords rest
  | _ => []

/-- Compress one 64-byte block into the running hash state. -/
def shaCompress (st : Sha256State) (block : List Nat) : Sha256State :=
  let w := shaExtend 48 (bytesToWords block).reverse
  let r := (shaK.zip w).foldl shaRound st
  ⟨w32 (st.a + r.a), w32 (st.b + r.b), w32 (st.c + r.c), w32 (st.d + r.d),
   w32 (st.e + r.e), w32 (st.f + r.f), w32 (st.g + r.g), w32 (st.h + r.h)⟩

/-- Big-endian 8-byte encoding of a 64-bit length value. -/
def len64Bytes (n : Nat) : List Nat :=
  [n >>> 56 % 256, n >>> 48 % 256, n >>> 40 % 256, n >>> 32 % 256,
   n >>> 24 % 256, n >>> 16 % 256, n >>> 8 % 256, n % 256]

/-- SHA-256 padding: append the 0x80 byte, enough zero bytes to reach 56
modulo 64, and the big-endian bit length. -/
def shaPad (msg : List Nat) : List Nat :=
  let l := msg.length
  msg ++ 128 :: List.replicate ((119 - l % 64) % 64) 0 ++ len64Bytes (8 * l)

/-- Split a byte list into 64-byte blocks (fuel-indexed; the padded input
length is a multiple of 64 and the fuel is at least the block count). -/
def toBlocksFuel : Nat → List Nat → List (List Nat)
  | 0, _ => []
  | fuel + 1, l =>
    if l.isEmpty then [] else l.take 64 :: toBlocksFuel fuel (l.drop 64)

/-- Big-endian bytes of a 32-bit word. -/
def word32Bytes (n : Nat) : List Nat :=
  [n >>> 24 % 256, n >>> 16 % 256, n >>> 8 % 256, n % 256]

/-- Byte serialisation of the final hash state. -/
def stateBytes (st : Sha256State) : List Nat :=
  word32Bytes st.a ++ word32Bytes st.b ++ word32Bytes st.c ++ word32Bytes st.d ++
  word32Bytes st.e ++ word32Bytes st.f ++ word32Bytes st.g ++ word32Bytes st.h

/-- SHA-256 of a byte string, as `hashlib.sha256(msg).digest()`. -/
def sha256 (msg : List Nat) : List Nat :=
  let padded := shaPad msg
  stateBytes ((toBlocksFuel padded.length padded).foldl (fun st blk => shaCompress st blk) shaH0)

/-- HMAC-SHA256 of `msg` keyed by `key`, as `hmac.new(key, msg, hashlib.sha256).digest()`. -/
def hmacSha256 (key msg : List Nat) : List Nat :=
  let k1 := if key.length > 64 then sha256 key else key
  let k64 := k1 ++ List.replicate (64 - k1.length) 0
  sha256 (k64.map (fun b => b ^^^ 92) ++ sha256 (k64.map (fun b => b ^^^ 54) ++ msg))

/-- Lowercase hex character of a value below 16. -/
def hexChar (n : Nat) : Char :=
  if n < 10 then Char.ofNat (48 + n) else Char.ofNat (87 + n)

/-- Lowercase hex encoding of a byte string, as Python `.hexdigest()`. -/
def hexDigest (bytes : List Nat) : List Char :=
  bytes.flatMap (fun b => [hexChar (b / 16), hexChar (b % 16)])

/-- UTF-8 encoding of a string, as Python `str.encode('utf-8')`. -/
def utf8Encode (s : List Char) : List Nat :=
  s.flatMap (fun c =>
    let n := c.toNat
    if n < 128 then [n]
    else if n < 2048 then [192 + n / 64, 128 + n % 64]
    else if n < 65536 then [224 + n / 4096, 128 + n / 64 % 64, 128 + n % 64]
    else [240 + n / 262144, 128 + n / 4096 % 64, 128 + n / 64 % 64, 128 + n % 64])

/-- Python's ASCII test on one code point, as `hmac.compare_digest`
applies it to `str` arguments. -/
def pyIsAscii (c : Char) : Bool :=
  c.toNat < 128

/-- Python `hmac.compare_digest` on two strings: a constant-time equality
check that only accepts ASCII-only `str` arguments — if either string
contains a non-ASCII character it raises
`TypeError: comparing strings with non-ASCII characters is not supported`.
Timing is outside the embedding, so on the non-raising path this is
string equality. -/
def compare_digest (a b : List Char) : Except PyError Bool :=
  if a.all pyIsAscii && b.all pyIsAscii then .ok (a == b)
  else .error .typeError

/-- `verify_signature` from `main.py`: compute the HMAC-SHA256 of the raw
request body keyed by the UTF-8 encoding of the API key, hex-encode it,
and compare with the provided signature via `hmac.compare_digest` (whose
`TypeError` on a non-ASCII signature propagates — the function has no
`try`/`except`). -/
def verify_signature (request_body : List Nat) (signature : List Char) (api_key : List Char) :
    Except PyError Bool :=
  compare_digest signature (hexDigest (hmacSha256 (utf8Encode api_key) request_body))

/-- A JSON value, as produced by `json.loads`.  Numbers are modelled as
integers (Tribute amounts are integer minor units). -/
inductive Json where
  | null
  | bool (b : Bool)
  | num (n : ℤ)
  | str (s : List Char)
  | arr (elems : List Json)
  | obj (fields : List (List Char × Json))

/-- Python truthiness of a JSON value. -/
def pyTruthy : Json → Bool
  | .null => false
  | .bool b => b
  | .num n => n != 0
  | .str s => !s.isEmpty
  | .arr l => !l.isEmpty
  | .obj f => !f.isEmpty

/-- Python `value.get(key, default)`: a dict lookup with a default; calling
`.get` on any non-dict value raises `AttributeError`. -/
def pyGetD (j : Json) (key : List Char) (default : Json) : Except PyError Json :=
  match j with
  | .obj fields => .ok ((List.lookup key fields).getD default)
  | _ => .error .attributeError

/-- `extract_player_name` from `main.py`, which is the expression
`message.strip().split()[0] if message else ""`: a falsy message yields
the empty string, otherwise the message is stripped and split and its
first token taken — indexing an empty token list raises `IndexError`,
and a truthy non-string raises `AttributeError` at `.strip()`. -/
def extract_player_name (message : Json) : Except PyError (List Char) :=
  if pyTruthy message then
    match message with
    | .str s =>
      match pySplit (pyStrip s) with
      | [] => .error .indexError
      | t :: _ => .ok t
    | _ => .error .attributeError
  else
    .ok []

/-- Python `int(x)` on a rational value: truncation toward zero. -/
def pyTrunc (q : ℚ) : ℤ :=
  if 0 ≤ q then ⌊q⌋ else -⌊-q⌋

/-- `convert_to_game_currency` from `main.py`: uppercase the currency code,
look it up in the rate table with default 0, return 0 on a zero rate
(the unknown-currency branch), and otherwise return `int(amount * rate)`.
The rate table is modelled with rational rates.  A non-string currency
raises at `.upper()`; a non-numeric amount raises at `amount * rate`
(only reachable when the rate is nonzero, since the zero-rate branch
returns before touching the amount). -/
def convert_to_game_currency (rates : List (List Char × ℚ)) (amountJ currencyJ : Json) :
    Except PyError ℤ :=
  match currencyJ with
  | .str cur =>
    let rate := (List.lookup (upperL cur) rates).getD 0
    if rate = 0 then .ok 0
    else
      match amountJ with
      | .num a => .ok (pyTrunc ((a : ℚ) * rate))
      | _ => .error .typeError
  | _ => .error .attributeError

/-- Status values carried in processing results. -/
inductive RStatus where
  | success
  | error
  | received
deriving DecidableEq

/-- The result dict built by `process_new_donation`. -/
structure DonationResult where
  status : RStatus
  reason : List Char
  player_name : Option (List Char)
  game_currency : ℤ

/-- The result dict built by `process_other_webhook`. -/
structure OtherResult where
  status : RStatus
  reason : List Char

/-- A row appended by `DatabaseManager.save_tribute_webhook`. -/
structure DbRecord where
  webhook_type : List Char
  payload : Json
  status : RStatus
  player_name : Option (List Char)
  game_currency : ℤ
  error_message : Option (List Char)

/-- Reason text for a donation whose message has no player name. -/
def reasonNoPlayer : List Char := "Не указано имя игрока в сообщении".toList

/-- Reason text for a successful RCON credit. -/
def reasonSuccess : List Char := "Валюта успешно начислена через RCON".toList

/-- Reason text for an RCON command classified as failed. -/
def reasonRconFail : List Char := "Ошибка выполнения RCON команды".toList

/-- The `save_tribute_webhook` call made at the end of
`process_new_donation` (the error message is stored only for error
results, mirroring the conditional expression at the call site). -/
def mkDonationRecord (payload : Json) (r : DonationResult) : DbRecord :=
  ⟨("new_donation").toList, payload, r.status, r.player_name, r.game_currency,
    if r.status = RStatus.error then some r.reason else none⟩

/-- Application configuration fixed at startup: the currency rate table and
the RCON command specification. -/
structure AppConfig where
  currency_rates : List (List Char × ℚ)
  rcon : RconConfig

/-- `process_new_donation` from `main.py`.  The remote transport is passed
as a function from the rendered command to its outcome (one invocation
consults it exactly once), and `dbFails` says whether the best-effort
`save_tribute_webhook` call raises; a raising save is caught and logged,
so it only affects which rows were appended, never the result.  The
`try`/`except` around `add_currency_to_player` is unreachable in the
embedding because `execute_command` already catches every transport
exception and returns a pair.  The leading `.get` calls for the unused
donation/user identifiers are kept because they are what raises first on
a non-dict payload. -/
def process_new_donation (cfg : AppConfig) (payload : Json)
    (transport : List Char → RconOutcome) (dbFails : Bool) :
    Except PyError (DonationResult × List DbRecord) := do
  let _ ← pyGetD payload ("donation_request_id").toList Json.null
  let message ← pyGetD payload ("message").toList (Json.str [])
  let amount ← pyGetD payload ("amount").toList (Json.num 0)
  let currency ← pyGetD payload ("currency").toList (Json.str [])
  let _ ← pyGetD payload ("user_id").toList Json.null
  let _ ← pyGetD payload ("telegram_user_id").toList Json.null
  let player ← extract_player_name message
  let result ←
    if player.isEmpty then
      pure (DonationResult.mk RStatus.error reasonNoPlayer none 0)
    else do
      let gc ← convert_to_game_currency cfg.currency_rates amount currency
      let ok := add_currency_to_player cfg.rcon transport player gc
      pure (if ok then DonationResult.mk RStatus.success reasonSuccess (some player) gc
            else DonationResult.mk RStatus.error reasonRconFail (some player) gc)
  let records := if dbFails then [] else [mkDonationRecord payload result]
  return (result, records)

/-- `process_other_webhook` from `main.py`: wrap the payload with status
`received` and append a best-effort record; a raising save is caught. -/
def process_other_webhook (webhook_type : List Char) (payload : Json) (dbFails : Bool) :
    OtherResult × List DbRecord :=
  let result := OtherResult.mk RStatus.received
    (("Webhook ").toList ++ webhook_type ++ (" получен и сохранен").toList)
  let records := if dbFails then []
    else [DbRecord.mk webhook_type payload RStatus.received none 0 none]
  (result, records)

/-- The webhook type compared against the string `new_donation`: a Python
`==` between a non-string JSON value and a string is simply false. -/
def isNewDonation (nameJ : Json) : Bool :=
  match nameJ with
  | .str s => s == ("new_donation").toList
  | _ => false

/-- Text of the webhook type as used in the other-path reason string (the
claims only reach this with string-valued names; Python would render
other JSON values via `str()`, which the embedding does not model). -/
def wtText (nameJ : Json) : List Char :=
  match nameJ with
  | .str s => s
  | _ => []

/-- The body of a 200 response. -/
inductive WebhookResult where
  | donation (r : DonationResult)
  | other (r : OtherResult)

/-- Responses produced by the endpoint layer.  An `HTTPException` raised by
the handler is rendered by the framework as a response with that status
code, so it is modelled as a normal `httpError` return; an exception of
any other kind escapes the handler (the `Except.error` case) and is NOT
one of these responses. -/
inductive HttpResponse where
  | httpError (code : Nat) (detail : List Char)
  | ok200 (result : WebhookResult)

/-- `handle_webhook` from `main.py`.  `sigOk` is true when the (separately
analysed) `verify_signature(body, signature, api_key)` returned true and
`parsed` is the outcome of `json.loads(body)` (`none` for a
`JSONDecodeError`).  Signature failure yields 401 before the body is
inspected; a JSON decode failure yields 400; then the webhook type and
payload are read with `data.get` — which raises `AttributeError` on any
non-object `data` — and the appropriate processor runs, its result
wrapped in a 200 response. -/
def handle_webhook (cfg : AppConfig) (sigOk : Bool) (parsed : Option Json)
    (transport : List Char → RconOutcome) (dbFails : Bool) :
    Except PyError HttpResponse :=
  if !sigOk then .ok (.httpError 401 ("Invalid webhook signature").toList)
  else
    match parsed with
    | none => .ok (.httpError 400 ("Invalid JSON").toList)
    | some data => do
      let nameJ ← pyGetD data ("name").toList (Json.str [])
      let payload ← pyGetD data ("payload").toList (Json.obj [])
      if isNewDonation nameJ then do
        let r ← process_new_donation cfg payload transport dbFails
        return .ok200 (.donation r.1)
      else
        return .ok200 (.other (process_other_webhook (wtText nameJ) payload dbFails).1)

/-- A boolean list is empty exactly when it equals the nil list. -/
lemma isEmpty_eq_decide {α : Type} [DecidableEq α] (l : List α) :
    l.isEmpty = decide (l = []) := by
  cases l <;> simp

/-- The short-circuiting pattern loop agrees with `List.any` over the
rendered-pattern match test. -/
lemma patternLoop_eq_any (player : List Char) (amt : ℤ) (rl : List Char)
    (pats : List (List Char)) :
    patternLoop player amt rl pats
      = pats.any (fun p => containsSub (lowerL (replace_placeholders p player amt)) rl) := by
  induction pats with
  | nil => rfl
  | cons p ps ih =>
    cases h : containsSub (lowerL (replace_placeholders p player amt)) rl <;>
      simp [patternLoop, h, ih]

/-- The serialised hash state always has its 32 bytes, hence is non-empty. -/
lemma stateBytes_ne_nil (st : Sha256State) : stateBytes st ≠ [] := by
  simp [stateBytes, word32Bytes]

/-- A SHA-256 digest is never the empty byte string. -/
lemma sha256_ne_nil (m : List Nat) : sha256 m ≠ [] := by
  simp only [sha256]
  exact stateBytes_ne_nil _

/-- An HMAC-SHA256 digest is never the empty byte string. -/
lemma hmacSha256_ne_nil (k m : List Nat) : hmacSha256 k m ≠ [] := by
  simp only [hmacSha256]
  exact sha256_ne_nil _

/-- Hex encoding of a non-empty byte string is non-empty. -/
lemma hexDigest_ne_nil (l : List Nat) (h : l ≠ []) : hexDigest l ≠ [] := by
  cases l with
  | nil => exact absurd rfl h
  | cons b t => simp [hexDigest]

/-- The NIST test vector for SHA-256 of the three bytes `abc`, checking the
embedding of the hash against its reference values. -/
lemma sha256_test_vector :
    hexDigest (sha256 [97, 98, 99])
      = ("ba7816bf8f01cfea414140de5dae2223b00361a396177a9cb410ff61f20015ad").toList := by
  rfl

/-- HMAC-SHA256 of body `abc` under key `key`, checking the embedding of the
keyed hash against its reference value. -/
lemma hmac_test_vector :
    hexDigest (hmacSha256 [107, 101, 121] [97, 98, 99])
      = ("9c196e32dc0175f86f4b1cb89289d6619de6bee699e4c378e68309ed97a1a6ab").toList := by
  rfl

/-- C1: the response classifier, after color-stripping and lowercasing the
response and substituting the player and amount into each pattern,
returns false if any rendered error pattern occurs case-insensitively in
the cleaned response; otherwise true if any rendered success pattern
occurs; otherwise true exactly when the success-pattern list is empty.
The if-ordering of the right-hand side makes the asymmetry explicit:
error patterns are consulted first and unconditionally, even when the
success-pattern list is empty. -/
theorem c1_classifier_precedence (errs succs : List (List Char))
    (resp player : List Char) (amt : ℤ) :
    check_response errs succs resp player amt =
      (if errs.any (fun p => containsSub (lowerL (replace_placeholders p player amt))
            (lowerL (strip_minecraft_colors resp))) then false
       else if succs.any (fun p => containsSub (lowerL (replace_placeholders p player amt))
            (lowerL (strip_minecraft_colors resp))) then true
       else decide (succs = [])) := by
  simp only [check_response, patternLoop_eq_any, isEmpty_eq_decide]

/-- A hex character of a value below 16 is ASCII. -/
lemma hexChar_ascii (n : Nat) (h : n < 16) : pyIsAscii (hexChar n) = true := by
  interval_cases n <;> decide

/-- Each byte produced by `word32Bytes` is below 256. -/
lemma word32Bytes_lt (n : Nat) : ∀ b ∈ word32Bytes n, b < 256 := by
  intro b hb
  simp only [word32Bytes, List.mem_cons, List.not_mem_nil, or_false] at hb
  rcases hb with rfl | rfl | rfl | rfl <;> omega

/-- Each byte of the serialised hash state is below 256. -/
lemma stateBytes_lt (st : Sha256State) : ∀ b ∈ stateBytes st, b < 256 := by
  intro b hb
  simp only [stateBytes, List.mem_append] at hb
  rcases hb with ((((((h | h) | h) | h) | h) | h) | h) | h <;> exact word32Bytes_lt _ b h

/-- Each byte of a SHA-256 digest is below 256. -/
lemma sha256_bytes_lt (m : List Nat) : ∀ b ∈ sha256 m, b < 256 := by
  simp only [sha256]
  exact stateBytes_lt _

/-- Each byte of an HMAC-SHA256 digest is below 256. -/
lemma hmacSha256_bytes_lt (k m : List Nat) : ∀ b ∈ hmacSha256 k m, b < 256 := by
  simp only [hmacSha256]
  exact sha256_bytes_lt _

/-- Hex encoding of genuine bytes yields an ASCII-only string. -/
lemma hexDigest_ascii (l : List Nat) (h : ∀ b ∈ l, b < 256) :
    (hexDigest l).all pyIsAscii = true := by
  induction l with
  | nil => rfl
  | cons b t ih =>
    have hb : b < 256 := h b (List.mem_cons_self b t)
    have ht := ih fun x hx => h x (List.mem_cons_of_mem _ hx)
    have hsplit : hexDigest (b :: t) = hexChar (b / 16) :: hexChar (b % 16) :: hexDigest t := rfl
    rw [hsplit]
    simp only [List.all_cons, Bool.and_eq_true]
    exact ⟨hexChar_ascii _ (by omega), hexChar_ascii _ (by omega), ht⟩

/-- C2 counterexample: the claim promises a normal false, never an
exception, for every non-matching signature string; but at the
non-ASCII signature `"§"` the `hmac.compare_digest` call raises
`TypeError`, which `verify_signature` does not catch, so the function
raises instead of returning false. -/
theorem c2_claim_counterexample :
    verify_signature [97, 98, 99] ['§'] ("key").toList = Except.error PyError.typeError
    ∧ verify_signature [97, 98, 99] ['§'] ("key").toList ≠ Except.ok false := by
  have h1 : verify_signature [97, 98, 99] ['§'] ("key").toList
      = Except.error PyError.typeError := rfl
  exact ⟨h1, fun h => by rw [h1] at h; exact Except.noConfusion h⟩

/-- C2 amended: for every ASCII signature string the claim holds as
stated — `verify_signature` returns true exactly when the signature
equals the lowercase hex HMAC-SHA256 of the body keyed by the secret,
the genuine signature verifies, and any other ASCII signature,
including the empty string, yields a normal false rather than an
exception; but a signature containing a non-ASCII character makes
`hmac.compare_digest` raise `TypeError`, which propagates out of
`verify_signature`. -/
theorem c2_verify_signature (B : List Nat) (s K : List Char) :
    (s.all pyIsAscii = true →
      ((verify_signature B s K = Except.ok true
          ↔ s = hexDigest (hmacSha256 (utf8Encode K) B))
       ∧ (s ≠ hexDigest (hmacSha256 (utf8Encode K) B) →
          verify_signature B s K = Except.ok false)))
    ∧ verify_signature B (hexDigest (hmacSha256 (utf8Encode K) B)) K = Except.ok true
    ∧ verify_signature B [] K = Except.ok false
    ∧ (s.all pyIsAscii = false →
        verify_signature B s K = Except.error PyError.typeError) := by
  have hD : (hexDigest (hmacSha256 (utf8Encode K) B)).all pyIsAscii = true :=
    hexDigest_ascii _ (hmacSha256_bytes_lt _ _)
  refine ⟨fun hs => ⟨?_, ?_⟩, ?_, ?_, fun hs => ?_⟩
  · simp [verify_signature, compare_digest, hs, hD]
  · intro hne
    simp [verify_signature, compare_digest, hs, hD, hne]
  · simp [verify_signature, compare_digest, hD]
  · cases hDnil : hexDigest (hmacSha256 (utf8Encode K) B) with
    | nil => exact absurd hDnil (hexDigest_ne_nil _ (hmacSha256_ne_nil _ _))
    | cons b t =>
      rw [hDnil] at hD
      simp [verify_signature, compare_digest, hDnil, hD]
  · simp [verify_signature, compare_digest, hs]

/-- C2 witness: at the concrete body `abc` and key `key`, the genuine
signature verifies, the empty signature and the wrong ASCII signature
`"00"` yield a normal false, and the non-ASCII signature `"§"` raises
`TypeError`. -/
theorem c2_verify_signature_witness :
    verify_signature [97, 98, 99]
        (hexDigest (hmacSha256 (utf8Encode ("key").toList) [97, 98, 99])) ("key").toList
      = Except.ok true
    ∧ verify_signature [97, 98, 99] [] ("key").toList = Except.ok false
    ∧ verify_signature [97, 98, 99] ("00").toList ("key").toList = Except.ok false
    ∧ verify_signature [97, 98, 99] ['§'] ("key").toList = Except.error PyError.typeError :=
  ⟨(c2_verify_signature [97, 98, 99]
      (hexDigest (hmacSha256 (utf8Encode ("key").toList) [97, 98, 99])) ("key").toList).2.1,
   (c2_verify_signature [97, 98, 99] [] ("key").toList).2.2.1,
   ((c2_verify_signature [97, 98, 99] (("00").toList) ("key").toList).1 (by decide)).2 (by decide),
   (c2_verify_signature [97, 98, 99] ['§'] ("key").toList).2.2.2 (by decide)⟩

/-- A concrete RCON configuration used for closed instances. -/
def sampleRcon : RconConfig :=
  ⟨("localhost").toList, 25575, ("money give %player_name% %amount%").toList, [], []⟩

/-- A concrete application configuration used for closed instances. -/
def sampleConfig : AppConfig :=
  ⟨[(("RUB").toList, mkRat 1 100)], sampleRcon⟩

/-- A transport that always returns an empty successful response. -/
def okTransport : List Char → RconOutcome :=
  fun _ => RconOutcome.ok []

/-- C3: behaviour of `extract_player_name` at the claim's own instances.
The whitespace-only message `"   "` is truthy, so the code takes the
branch `message.strip().split()[0]`, and indexing the empty token list
raises `IndexError` — it does NOT return the empty string the claim
(and the function's docstring) promise.  The other two instances agree
with the claim: the empty message short-circuits to `""` and a
non-empty message yields its first whitespace-separated token. -/
theorem c3_extract_player_name_behavior :
    extract_player_name (Json.str ("   ").toList) = Except.error PyError.indexError
    ∧ extract_player_name (Json.str []) = Except.ok []
    ∧ extract_player_name (Json.str ("  Steve hello ").toList) = Except.ok ("Steve").toList :=
  ⟨rfl, rfl, rfl⟩

/-- C4: `convert_to_game_currency` uppercases the code; an absent code
yields 0 without failing; a present non-negative rate yields the
non-negative integer `floor(amount * rate)`, the rate multiplying the
minor-unit amount directly. -/
theorem c4_convert_spec (rates : List (List Char × ℚ)) (a : ℕ) (c : List Char) :
    (List.lookup (upperL c) rates = none →
      convert_to_game_currency rates (Json.num (a : ℤ)) (Json.str c) = Except.ok 0)
    ∧ (∀ r : ℚ, List.lookup (upperL c) rates = some r → 0 ≤ r →
        convert_to_game_currency rates (Json.num (a : ℤ)) (Json.str c)
            = Except.ok ⌊(a : ℚ) * r⌋
          ∧ 0 ≤ ⌊(a : ℚ) * r⌋) := by
  constructor
  · intro h
    simp [convert_to_game_currency, h]
  · intro r hl hr
    have hnn : 0 ≤ (a : ℚ) * r := mul_nonneg (by positivity) hr
    by_cases h0 : r = 0
    · subst h0
      simp [convert_to_game_currency, hl]
    · refine ⟨?_, Int.floor_nonneg.mpr hnn⟩
      simp [convert_to_game_currency, hl, h0, pyTrunc, hnn]

/-- C4 witness: with the rate table mapping RUB to 1/100, converting 10000
minor units of RUB yields 100, converting 0 yields 0, and converting any
amount of the unknown code ZZZ yields 0. -/
theorem c4_convert_spec_witness :
    convert_to_game_currency [(("RUB").toList, (1 / 100 : ℚ))] (Json.num 10000)
        (Json.str ("RUB").toList) = Except.ok 100
    ∧ convert_to_game_currency [(("RUB").toList, (1 / 100 : ℚ))] (Json.num 0)
        (Json.str ("RUB").toList) = Except.ok 0
    ∧ convert_to_game_currency [(("RUB").toList, (1 / 100 : ℚ))] (Json.num 7)
        (Json.str ("ZZZ").toList) = Except.ok 0 := by
  refine ⟨?_, ?_, ?_⟩
  · have h := ((c4_convert_spec [(("RUB").toList, (1 / 100 : ℚ))] 10000
      (("RUB").toList)).2 (1 / 100) rfl (by norm_num)).1
    exact h.trans (congrArg Except.ok (by norm_num))
  · have h := ((c4_convert_spec [(("RUB").toList, (1 / 100 : ℚ))] 0
      (("RUB").toList)).2 (1 / 100) rfl (by norm_num)).1
    exact h.trans (congrArg Except.ok (by norm_num))
  · exact (c4_convert_spec [(("RUB").toList, (1 / 100 : ℚ))] 7 (("ZZZ").toList)).1 rfl

/-- C5 counterexample: with the sample configuration and a transport whose
connection is refused, `execute_command` does not return the pair
`(false, "")` the claim states — the response component is a non-empty
diagnostic message. -/
theorem c5_claim_counterexample :
    execute_command sampleRcon (fun _ => RconOutcome.connRefused) ("Steve").toList 100
      ≠ (false, []) := by
  decide

/-- C5 amended: when the connection is refused, `execute_command` returns
false paired with the NON-empty connection-failure message naming host
and port (not the empty string); any other transport exception likewise
yields false with a non-empty diagnostic; both exceptional outcomes are
ordinary return values (no exception escapes) and the transport is
consulted exactly once per invocation. -/
theorem c5_execute_command_failure (rc : RconConfig) (transport : List Char → RconOutcome)
    (player : List Char) (amount : ℤ) :
    (transport (renderCommand rc player amount) = RconOutcome.connRefused →
      execute_command rc transport player amount = (false, connRefusedMsg rc)
        ∧ connRefusedMsg rc ≠ [])
    ∧ (∀ m, transport (renderCommand rc player amount) = RconOutcome.exn m →
      execute_command rc transport player amount = (false, rconExnMsg m)
        ∧ rconExnMsg m ≠ []) := by
  constructor
  · intro h
    refine ⟨by simp [execute_command, h], fun hnil => ?_⟩
    have h1 := (List.append_eq_nil.mp hnil).1
    have h2 := (List.append_eq_nil.mp h1).1
    have h3 := (List.append_eq_nil.mp h2).1
    have h4 := (List.append_eq_nil.mp h3).1
    exact absurd h4 (by decide)
  · intro m h
    refine ⟨by simp [execute_command, h], fun hnil => ?_⟩
    have h1 := (List.append_eq_nil.mp hnil).1
    exact absurd h1 (by decide)

/-- C5 witness: the amended statement at the sample configuration and a
refusing transport. -/
theorem c5_execute_command_failure_witness :
    execute_command sampleRcon (fun _ => RconOutcome.connRefused) ("Steve").toList 100
      = (false, connRefusedMsg sampleRcon)
    ∧ connRefusedMsg sampleRcon ≠ [] :=
  (c5_execute_command_failure sampleRcon (fun _ => RconOutcome.connRefused)
    (("Steve").toList) 100).1 rfl

/-- The donation webhook body whose message is three spaces. -/
def donationWsData : Json :=
  Json.obj [(("name").toList, Json.str ("new_donation").toList),
            (("payload").toList, Json.obj [(("message").toList, Json.str ("   ").toList)])]

/-- The donation webhook body whose message is the empty string. -/
def donationEmptyMsgData : Json :=
  Json.obj [(("name").toList, Json.str ("new_donation").toList),
            (("payload").toList, Json.obj [(("message").toList, Json.str [])])]

/-- C6: behaviour of the webhook handler.  The 401 and 400 branches and the
200-with-error-data branch behave as the claim says, but the claim's
universal statement fails: a validly-signed donation whose message is
entirely whitespace makes `extract_player_name` raise an uncaught
`IndexError`, so that donation-processing failure escapes as an
exception (a 500 at the server) instead of a structured error in a 200
response. -/
theorem c6_handler_uncaught_exception :
    handle_webhook sampleConfig true (some donationWsData) okTransport false
      = Except.error PyError.indexError
    ∧ handle_webhook sampleConfig false (some donationWsData) okTransport false
      = Except.ok (HttpResponse.httpError 401 ("Invalid webhook signature").toList)
    ∧ handle_webhook sampleConfig true none okTransport false
      = Except.ok (HttpResponse.httpError 400 ("Invalid JSON").toList)
    ∧ handle_webhook sampleConfig true (some donationEmptyMsgData) okTransport false
      = Except.ok (HttpResponse.ok200 (WebhookResult.donation
          (DonationResult.mk RStatus.error reasonNoPlayer none 0))) :=
  ⟨rfl, rfl, rfl, rfl⟩

/-- Congruence for mapping the first projection over an `Except` bind whose
continuations agree on that projection. -/
lemma bind_map_fst_congr {α β γ : Type} (e : Except PyError α)
    (f g : α → Except PyError β) (w : β → γ)
    (h : ∀ v, (f v).map w = (g v).map w) :
    (e >>= f).map w = (e >>= g).map w := by
  cases e with
  | error err => rfl
  | ok v => exact h v

/-- C7: the processing result is fully determined before the best-effort
persistence attempt, so whether `save_tribute_webhook` raises (`d`)
or not (`d'`) never changes the returned result — only the set of
appended rows differs. -/
theorem c7_persistence_never_changes_result (cfg : AppConfig) (payload : Json)
    (transport : List Char → RconOutcome) (d d' : Bool) :
    (process_new_donation cfg payload transport d).map Prod.fst
      = (process_new_donation cfg payload transport d').map Prod.fst
    ∧ ∀ wt, (process_other_webhook wt payload d).1 = (process_other_webhook wt payload d').1 := by
  refine ⟨?_, fun wt => rfl⟩
  simp only [process_new_donation]
  refine bind_map_fst_congr _ _ _ _ fun v1 => ?_
  refine bind_map_fst_congr _ _ _ _ fun v2 => ?_
  refine bind_map_fst_congr _ _ _ _ fun v3 => ?_
  refine bind_map_fst_congr _ _ _ _ fun v4 => ?_
  refine bind_map_fst_congr _ _ _ _ fun v5 => ?_
  refine bind_map_fst_congr _ _ _ _ fun v6 => ?_
  refine bind_map_fst_congr _ _ _ _ fun player => ?_
  by_cases hp : player.isEmpty = true
  · simp only [if_pos hp]
    rfl
  · simp only [if_neg hp]
    exact bind_map_fst_congr _ _ _ _ fun gc => rfl

/-- C9: a currency whose looked-up rate is 0 — whether the code is absent
from the table or explicitly mapped to 0 — takes the unknown-currency
branch and converts to 0 for every amount, so the two table states are
indistinguishable to the converter. -/
theorem c9_zero_rate_indistinguishable (rates ratesB : List (List Char × ℚ))
    (amountJ : Json) (cur : List Char) :
    ((List.lookup (upperL cur) rates).getD 0 = 0 →
      convert_to_game_currency rates amountJ (Json.str cur) = Except.ok 0)
    ∧ ((List.lookup (upperL cur) rates).getD 0 = 0 →
       (List.lookup (upperL cur) ratesB).getD 0 = 0 →
        convert_to_game_currency rates amountJ (Json.str cur)
          = convert_to_game_currency ratesB amountJ (Json.str cur)) := by
  constructor
  · intro h
    simp [convert_to_game_currency, h]
  · intro h h'
    simp [convert_to_game_currency, h, h']

/-- C9 witness: amount 5 converts to 0 both under a table mapping RUB
explicitly to rate 0 and under the empty table. -/
theorem c9_zero_rate_witness :
    convert_to_game_currency [(("RUB").toList, (0 : ℚ))] (Json.num 5)
        (Json.str ("RUB").toList) = Except.ok 0
    ∧ convert_to_game_currency [] (Json.num 5) (Json.str ("RUB").toList) = Except.ok 0 :=
  ⟨(c9_zero_rate_indistinguishable [(("RUB").toList, (0 : ℚ))] [] (Json.num 5)
      (("RUB").toList)).1 rfl,
   (c9_zero_rate_indistinguishable [] [(("RUB").toList, (0 : ℚ))] (Json.num 5)
      (("RUB").toList)).1 rfl⟩

/-- C10: for a validly-signed body parsing to any JSON value that is not an
object, `data.get` raises an uncaught `AttributeError`, so the endpoint
produces neither the 400 reserved for invalid JSON nor any 200 result. -/
theorem c10_non_object_body (j : Json) (hno : ∀ fields, j ≠ Json.obj fields)
    (cfg : AppConfig) (transport : List Char → RconOutcome) (d : Bool) :
    handle_webhook cfg true (some j) transport d = Except.error PyError.attributeError
    ∧ ∀ r, handle_webhook cfg true (some j) transport d ≠ Except.ok r := by
  have h1 : handle_webhook cfg true (some j) transport d
      = Except.error PyError.attributeError := by
    cases j with
    | null => rfl
    | bool b => rfl
    | num n => rfl
    | str s => rfl
    | arr elems => rfl
    | obj fs => exact absurd rfl (hno fs)
  exact ⟨h1, fun r hr => by rw [h1] at hr; exact Except.noConfusion hr⟩

/-- C10 witness: the JSON array `[1, 2]` as a validly-signed body makes the
handler raise `AttributeError`. -/
theorem c10_non_object_body_witness :
    handle_webhook sampleConfig true (some (Json.arr [Json.num 1, Json.num 2]))
      okTransport false = Except.error PyError.attributeError :=
  (c10_non_object_body (Json.arr [Json.num 1, Json.num 2])
    (fun _fs h => Json.noConfusion h) sampleConfig okTransport false).1

/-- C8: color stripping deletes, case-insensitively, each occurrence of the
extended escape (`§x` followed by six `§`+hex-digit pairs) in the first
pass and each `§` followed by a hex digit or one of k, l, m, n, o, r in
the second pass, leaving every non-matching position untouched; the
composite runs the hex pass first; and the claim's instance holds:
`"§a§lSuccess§r"` strips to `"Success"`, which then matches the success
pattern `"success"` case-insensitively (the pattern itself is only
placeholder-substituted, never color-stripped — see the classifier
characterisation, whose match test renders but does not strip the
patterns). -/
theorem c8_strip_colors :
    (∀ (x a1 a2 a3 a4 a5 a6 : Char) (rest : List Char),
        (x = 'x' ∨ x = 'X') →
        isHexDigitCI a1 = true → isHexDigitCI a2 = true → isHexDigitCI a3 = true →
        isHexDigitCI a4 = true → isHexDigitCI a5 = true → isHexDigitCI a6 = true →
        stripHexEscapes ('§' :: x :: '§' :: a1 :: '§' :: a2 :: '§' :: a3 ::
            '§' :: a4 :: '§' :: a5 :: '§' :: a6 :: rest)
          = stripHexEscapes rest)
    ∧ (∀ (c : Char) (rest : List Char), hexEscapeAt (c :: rest) = false →
        stripHexEscapes (c :: rest) = c :: stripHexEscapes rest)
    ∧ (∀ (c : Char) (rest : List Char), isColorCode c = true →
        stripSimpleCodes ('§' :: c :: rest) = stripSimpleCodes rest)
    ∧ (∀ (a b : Char) (rest : List Char), (a = '§' && isColorCode b) = false →
        stripSimpleCodes (a :: b :: rest) = a :: stripSimpleCodes (b :: rest))
    ∧ (∀ s, strip_minecraft_colors s = stripSimpleCodes (stripHexEscapes s))
    ∧ strip_minecraft_colors (("§a§lSuccess§r").toList) = ("Success").toList
    ∧ (∀ (player : List Char) (amt : ℤ),
        check_response [] [("success").toList] (("§a§lSuccess§r").toList) player amt = true) := by
  refine ⟨?_, ?_, ?_, ?_, fun s => rfl, rfl, fun player amt => rfl⟩
  · intro x a1 a2 a3 a4 a5 a6 rest hx d1 d2 d3 d4 d5 d6
    rcases hx with rfl | rfl <;>
      simp [stripHexEscapes, hexEscapeAt, d1, d2, d3, d4, d5, d6]
  · intro c rest h
    rcases rest with _ | ⟨e1, _ | ⟨e2, _ | ⟨e3, _ | ⟨e4, _ | ⟨e5, _ | ⟨e6, _ | ⟨e7,
      _ | ⟨e8, _ | ⟨e9, _ | ⟨e10, _ | ⟨e11, _ | ⟨e12, _ | ⟨e13, tail⟩⟩⟩⟩⟩⟩⟩⟩⟩⟩⟩⟩⟩ <;>
      simp_all [stripHexEscapes]
  · intro c rest h
    simp [stripSimpleCodes, h]
  · intro a b rest h
    simp [stripSimpleCodes, h]

/-- C8 witness: a full extended escape followed by `Hi` strips to `Hi`, and
the simple code `§a` before `OK` strips away. -/
theorem c8_strip_colors_witness :
    stripHexEscapes (("§x§1§2§3§4§5§6Hi").toList) = ("Hi").toList
    ∧ stripSimpleCodes (("§aOK").toList) = ("OK").toList := by
  constructor
  · exact ((c8_strip_colors).1 'x' '1' '2' '3' '4' '5' '6' (("Hi").toList)
      (Or.inl rfl) (by decide) (by decide) (by decide) (by decide) (by decide)
      (by decide)).trans rfl
  · exact ((c8_strip_colors).2.2.1 'a' (("OK").toList) (by decide)).trans rfl
